import Mathlib

/-
Verification of the vllama inference gateway (Rust) against its
natural-language specification, via a shallow embedding in Lean 4.

The embedding translates the relevant Rust source files:
  crates/vllama-core/src/request.rs, response.rs, error.rs, templates.rs,
    openai.rs          (core data model, chat templates, OpenAI client)
  crates/vllama-engine/src/http_engine.rs, vllm_openai.rs
    (engine client: load/unload/generate-stream decoding, health checks)
  crates/vllama-server/src/api.rs, state.rs  (route handlers, SSE framing)
  crates/vllama-cli/src/commands/serve.rs    (backend supervision, health gate)

Network I/O is modelled by passing the backend's observable outcome
(an HTTP response, a transport error, a byte-chunk list) as an explicit
argument; async streams become lists of results; the tokio mutex becomes
an explicit trace of lock actions.  Floating-point fields of the source
(temperature, top_p, logprob, tokens_per_second) are not modelled: no
claim reads them.
-/

set_option autoImplicit false

namespace Vllama

/-! ## Core data model (vllama-core) -/

/-- RequestId newtype over u64 (types.rs). -/
structure RequestId where
  val : Nat
deriving DecidableEq, Repr

/-- ModelHandle newtype over u64 (model.rs). -/
structure ModelHandle where
  val : Nat
deriving DecidableEq, Repr

/-- Chat roles (request.rs). -/
inductive ChatRole
| System
| User
| Assistant
| Tool
deriving DecidableEq, Repr

/-- Chat message (request.rs): role, content, optional image list. -/
structure ChatMessage where
  role : ChatRole
  content : String
  images : Option (List String) := none
deriving DecidableEq, Repr

/-- ChatMessage::system constructor (request.rs). -/
def ChatMessage.system (content : String) : ChatMessage :=
  { role := .System, content := content, images := none }

/-- ChatMessage::user constructor (request.rs). -/
def ChatMessage.user (content : String) : ChatMessage :=
  { role := .User, content := content, images := none }

/-- ChatMessage.assistant constructor (request.rs). -/
def ChatMessage.assistant (content : String) : ChatMessage :=
  { role := .Assistant, content := content, images := none }

/-- Sampling parameters (request.rs).  The f32 fields (temperature, top_p,
penalties) are omitted: no claim depends on them. -/
structure SamplingParams where
  top_k : Option Nat := none
  max_tokens : Option Nat := none
  stop_sequences : List String := []
deriving DecidableEq, Repr

/-- Generation options (request.rs). -/
structure GenerateOptions where
  stream : Bool := false
  sampling : SamplingParams := {}
  return_logprobs : Bool := false
  echo_prompt : Bool := false
deriving DecidableEq, Repr

/-- Generate request (request.rs). -/
structure GenerateRequest where
  id : RequestId
  model : String
  prompt : String
  options : GenerateOptions := {}
deriving DecidableEq, Repr

/-- Generation statistics (response.rs).  tokens_per_second (f64) omitted. -/
structure GenerationStats where
  prompt_tokens : Nat
  generated_tokens : Nat
  total_tokens : Nat
  prompt_time_ms : Nat := 0
  generation_time_ms : Nat := 0
deriving DecidableEq, Repr

/-- GenerationStats::new (response.rs): total is the sum of the two counts. -/
def GenerationStats.new (prompt_tokens generated_tokens : Nat) : GenerationStats :=
  { prompt_tokens := prompt_tokens
    generated_tokens := generated_tokens
    total_tokens := prompt_tokens + generated_tokens }

/-- Generate response / stream chunk (response.rs).  The tokens field
(List of TokenInfo, whose logprob is f32) is modelled without logprob. -/
structure GenerateResponse where
  id : RequestId
  model : String
  text : String
  stats : GenerationStats := GenerationStats.new 0 0
  finished : Bool := false
  finish_reason : Option String := none
deriving DecidableEq, Repr

/-- GenerateResponse::new (response.rs). -/
def GenerateResponse.new (id : RequestId) (model : String) : GenerateResponse :=
  { id := id, model := model, text := "" }

/-- GenerateResponse::with_text (response.rs). -/
def GenerateResponse.with_text (r : GenerateResponse) (text : String) : GenerateResponse :=
  { r with text := text }

/-- Error taxonomy (error.rs).  IoError and SerdeError payloads are kept as
their display strings. -/
inductive Err
| ModelNotFound (msg : String)
| ModelLoadFailed (msg : String)
| InferenceFailed (msg : String)
| InvalidRequest (msg : String)
| HardwareUnsupported (msg : String)
| EngineNotAvailable (msg : String)
| ConfigError (msg : String)
| IoError (msg : String)
| SerdeError (msg : String)
deriving DecidableEq, Repr

/-- Boolean discriminator for Except results. -/
def exceptIsOk {ε α : Type} : Except ε α → Bool
| .ok _ => true
| .error _ => false

instance {ε α : Type} [DecidableEq ε] [DecidableEq α] : DecidableEq (Except ε α) :=
  fun x y =>
    match x, y with
    | .ok a, .ok b =>
      if h : a = b then .isTrue (by rw [h])
      else .isFalse (by intro hc; cases hc; exact h rfl)
    | .error a, .error b =>
      if h : a = b then .isTrue (by rw [h])
      else .isFalse (by intro hc; cases hc; exact h rfl)
    | .ok _, .error _ => .isFalse (by intro hc; cases hc)
    | .error _, .ok _ => .isFalse (by intro hc; cases hc)

/-! ## Character-list string primitives

The Rust string operations are modelled over List Char so that every
definition reduces inside the kernel (the corresponding String library
functions are position-based and do not). -/

/-- Whether the first list is a prefix of the second. -/
def listIsPrefixOfB : List Char → List Char → Bool
| [], _ => true
| _ :: _, [] => false
| a :: as, b :: bs => a == b && listIsPrefixOfB as bs

/-- Whether the first list occurs as a contiguous segment of the second
(Rust str::contains). -/
def listIsInfixOfB (pat : List Char) : List Char → Bool
| [] => listIsPrefixOfB pat []
| c :: rest => listIsPrefixOfB pat (c :: rest) || listIsInfixOfB pat rest

/-- Joining with a separator (Rust join, String::intercalate). -/
def joinSep (sep : String) : List String → String
| [] => ""
| [s] => s
| s :: rest => s ++ sep ++ joinSep sep rest

/-! ## Chat templates (vllama-core/src/templates.rs) -/

/-- Substring test modelling Rust str::contains with a string pattern. -/
def containsSubstr (s pat : String) : Bool :=
  listIsInfixOfB pat.data s.data

/-- Llama3Template::apply (templates.rs): header-tagged rendering with a
trailing assistant header. -/
def llama3TemplateApply (messages : List ChatMessage) : String :=
  let body := messages.foldl
    (fun acc msg =>
      let header := match msg.role with
        | .System => "<|start_header_id|>system<|end_header_id|>\n\n"
        | .User => "<|start_header_id|>user<|end_header_id|>\n\n"
        | .Assistant => "<|start_header_id|>assistant<|end_header_id|>\n\n"
        | .Tool => "<|start_header_id|>tool<|end_header_id|>\n\n"
      acc ++ header ++ msg.content ++ "<|eot_id|>")
    "<|begin_of_text|>"
  body ++ "<|start_header_id|>assistant<|end_header_id|>\n\n"

/-- Rendering of one message in the generic template (templates.rs and
api.rs share this per-message shape). -/
def roleLine (msg : ChatMessage) : String :=
  match msg.role with
  | .System => "System: " ++ msg.content
  | .User => "User: " ++ msg.content
  | .Assistant => "Assistant: " ++ msg.content
  | .Tool => "Tool: " ++ msg.content

/-- SimpleChatTemplate::apply (templates.rs): generic Role-colon-content
lines joined with blank lines. -/
def simpleChatTemplateApply (messages : List ChatMessage) : String :=
  joinSep "\n\n" (messages.map roleLine)

/-- Which ChatTemplate implementation get_template_for_model selects. -/
inductive TemplateKind
| llama3
| simple
deriving DecidableEq, Repr

/-- ASCII lowering of one character (Rust to_lowercase restricted to the
ASCII model names the repository uses). -/
def asciiLower (c : Char) : Char :=
  if 'A' ≤ c && c ≤ 'Z' then Char.ofNat (c.toNat + 32) else c

/-- get_template_for_model (templates.rs): llama-family names get the
Llama3 template, everything else the generic one. -/
def get_template_for_model (model_name : String) : TemplateKind :=
  if listIsInfixOfB "llama".data (model_name.data.map asciiLower) then .llama3
  else .simple

/-- Dispatch of ChatTemplate::apply over the selected implementation. -/
def templateApply (k : TemplateKind) (messages : List ChatMessage) : String :=
  match k with
  | .llama3 => llama3TemplateApply messages
  | .simple => simpleChatTemplateApply messages

/-! ## Gateway prompt rendering (vllama-server/src/api.rs) -/

/-- messages_to_prompt (api.rs lines 19-30): the gateway's actual prompt
renderer, a generic Role-colon-content joiner independent of the model. -/
def messages_to_prompt (messages : List ChatMessage) : String :=
  joinSep "\n\n" (messages.map roleLine)

/-- Prompt used by the streaming Ollama-chat handler (api.rs line 712):
messages_to_prompt applied to the request messages; the model name is
not consulted. -/
def chatStreamPrompt (_model : String) (messages : List ChatMessage) : String :=
  messages_to_prompt messages

/-- Modelled from the spec (refinement target for C8): the prompt the spec
says the gateway produces, namely the model-family-specific template
selected by get_template_for_model, falling back to the generic joiner. -/
def specModelSpecificPrompt (model : String) (messages : List ChatMessage) : String :=
  templateApply (get_template_for_model model) messages

/-! ## Wire frame types of the three dialects (vllama-server/src/api.rs) -/

/-- Ollama-generate response frame (api.rs GenerateApiResponse). -/
structure GenerateApiResponse where
  model : String
  response : String
  done : Bool
  total_duration : Option Nat := none
  eval_count : Option Nat := none
deriving DecidableEq, Repr

/-- Ollama-chat response frame (api.rs ChatApiResponse). -/
structure ChatApiResponse where
  model : String
  message : ChatMessage
  done : Bool
  total_duration : Option Nat := none
  eval_count : Option Nat := none
deriving DecidableEq, Repr

/-- OpenAI chat-chunk delta (api.rs OpenAIDelta). -/
structure OpenAIDelta where
  role : Option String := none
  content : Option String := none
deriving DecidableEq, Repr

/-- OpenAI streamed-chunk choice (api.rs OpenAIChunkChoice). -/
structure OpenAIChunkChoice where
  index : Nat
  delta : OpenAIDelta
  finish_reason : Option String
deriving DecidableEq, Repr

/-- OpenAI streamed chunk (api.rs OpenAIChatChunk). -/
structure OpenAIChatChunk where
  id : String
  object : String
  created : Nat
  model : String
  choices : List OpenAIChunkChoice
deriving DecidableEq, Repr

/-- OpenAI non-streaming choice (api.rs OpenAIChoice). -/
structure OpenAIChoice where
  index : Nat
  message : ChatMessage
  finish_reason : String
deriving DecidableEq, Repr

/-- OpenAI usage block (api.rs OpenAIUsage). -/
structure OpenAIUsage where
  prompt_tokens : Nat
  completion_tokens : Nat
  total_tokens : Nat
deriving DecidableEq, Repr

/-- OpenAI non-streaming response (api.rs OpenAIChatResponse). -/
structure OpenAIChatResponse where
  id : String
  object : String
  created : Nat
  model : String
  choices : List OpenAIChoice
  usage : Option OpenAIUsage
deriving DecidableEq, Repr

/-! ## Streaming translators (vllama-server/src/api.rs)

Each streaming handler folds the upstream backend stream into SSE frames
with a stream::unfold whose state is (upstream, model, count, done):
once the done flag is set the unfold returns None; an Ok upstream item
becomes a non-terminal frame; an Err upstream item ends the SSE stream
with no further frame; upstream exhaustion (None) emits the terminal
frame and sets done.  Over a finite upstream, given as a list of results,
that unfold is the structural recursion below; the done flag corresponds
to the empty continuation after the terminal frame. -/

/-- SSE frames of the streaming Ollama-generate handler (api.rs generate,
lines 236-274), as a function of the upstream results still to be read
and of the running chunk count held in the unfold state. -/
def ollamaGenerateFrames (model : String) (count : Nat) :
    List (Except Err GenerateResponse) → List GenerateApiResponse
| [] =>
  [{ model := model, response := "", done := true,
     total_duration := none, eval_count := some count }]
| .ok resp :: rest =>
  { model := model, response := resp.text, done := false,
    total_duration := none, eval_count := none }
    :: ollamaGenerateFrames model (count + 1) rest
| .error _ :: _ => []

/-- SSE frames of the streaming Ollama-chat handler (api.rs chat, lines
720-761).  The accumulated text threaded by the source closure is carried
for fidelity; it never reaches a frame. -/
def ollamaChatFrames (model accumulated : String) (count : Nat) :
    List (Except Err GenerateResponse) → List ChatApiResponse
| [] =>
  [{ model := model, message := ChatMessage.assistant "", done := true,
     total_duration := none, eval_count := some count }]
| .ok resp :: rest =>
  { model := model, message := ChatMessage.assistant resp.text, done := false,
    total_duration := none, eval_count := none }
    :: ollamaChatFrames model (accumulated ++ resp.text) (count + 1) rest
| .error _ :: _ => []

/-- SSE frames of the streaming OpenAI chat-completions handler (api.rs
openai_chat_completions, lines 590-642). -/
def openaiChatFrames (id : String) (created : Nat) (model : String) (count : Nat) :
    List (Except Err GenerateResponse) → List OpenAIChatChunk
| [] =>
  [{ id := id, object := "chat.completion.chunk", created := created,
     model := model,
     choices := [{ index := 0,
                   delta := { role := none, content := none },
                   finish_reason := some "stop" }] }]
| .ok resp :: rest =>
  { id := id, object := "chat.completion.chunk", created := created,
    model := model,
    choices := [{ index := 0,
                  delta := { role := none, content := some resp.text },
                  finish_reason := none }] }
    :: openaiChatFrames id created model (count + 1) rest
| .error _ :: _ => []

/-- Terminal-frame predicate for the OpenAI dialect: some choice carries
finish_reason stop. -/
def openaiChunkIsTerminal (c : OpenAIChatChunk) : Bool :=
  c.choices.any (fun ch => ch.finish_reason == some "stop")

/-- Text fragment carried by an OpenAI streamed chunk (delta content of
the first choice, empty when absent). -/
def openaiChunkText (c : OpenAIChatChunk) : String :=
  ((c.choices.head?).bind (fun ch => ch.delta.content)).getD ""

/-- Non-streaming OpenAI chat-completions response (api.rs
openai_chat_completions, lines 656-676): choices and usage are built with
hardcoded finish_reason stop and all-zero token counts; the backend
response contributes only its text. -/
def openaiChatNonStreamResponse (request_id : String) (created : Nat)
    (model : String) (resp : GenerateResponse) : OpenAIChatResponse :=
  { id := request_id
    object := "chat.completion"
    created := created
    model := model
    choices := [{ index := 0,
                  message := ChatMessage.assistant resp.text,
                  finish_reason := "stop" }]
    usage := some { prompt_tokens := 0, completion_tokens := 0, total_tokens := 0 } }

/-! ## HTTP plumbing shared by the engine clients -/

/-- Observable outcome of an HTTP call whose body is consumed only as
text: either the request failed in transport, or a response with a
status code and body arrived. -/
inductive HttpPlainOutcome
| transportError (msg : String)
| response (status : Nat) (body : String)
deriving DecidableEq, Repr

/-- reqwest StatusCode::is_success: 2xx. -/
def statusIsSuccess (status : Nat) : Bool :=
  200 ≤ status && status < 300

/-- A JSON field value as the health check observes it: a scalar, or a
nested array/object collapsed to jcomposite (only its non-boolness
matters to Value::as_bool). -/
inductive JLeaf
| jnull
| jbool (b : Bool)
| jnum (n : Int)
| jstr (s : String)
| jcomposite
deriving DecidableEq, Repr

/-- A serde_json::Value as the health check observes it: an object with
one level of fields, or a non-object value. -/
inductive JLite
| jobj (fields : List (String × JLeaf))
| jleaf (v : JLeaf)
deriving DecidableEq, Repr

/-- serde_json Value::get with a string key: field lookup on objects,
none elsewhere. -/
def jGet (v : JLite) (key : String) : Option JLeaf :=
  match v with
  | .jobj fields => (fields.find? (fun f => f.1 == key)).map Prod.snd
  | .jleaf _ => none

/-- serde_json Value::as_bool. -/
def jAsBool (v : JLeaf) : Option Bool :=
  match v with
  | .jbool b => some b
  | _ => none

/-! ## SSE byte-stream decoding (vllama-engine/src/http_engine.rs) -/

/-- Splitting a character list at newlines; one part per segment, so a
terminal newline contributes a trailing empty part. -/
def splitOnNewline : List Char → List (List Char)
| [] => [[]]
| '\n' :: rest => [] :: splitOnNewline rest
| c :: rest =>
  match splitOnNewline rest with
  | [] => [[c]]
  | part :: parts => (c :: part) :: parts

/-- Dropping one trailing carriage return (the half of a CRLF line
ending left behind by the newline split). -/
def stripCR (l : List Char) : List Char :=
  match l.getLast? with
  | some '\r' => l.dropLast
  | _ => l

/-- Rust str::lines: split on newline, drop a carriage return before
each split point, drop the empty tail produced by a terminal newline.
A carriage return not followed by a newline stays, as in Rust. -/
def rustLines (s : String) : List (List Char) :=
  let parts := splitOnNewline s.data
  let n := parts.length
  let stripped := parts.enum.map (fun p => if p.1 + 1 < n then stripCR p.2 else p.2)
  match stripped.getLast? with
  | some [] => stripped.dropLast
  | _ => stripped

/-- Body of a JSON string literal after its opening quote: returns the
decoded characters and the remainder after the closing quote.  Escapes
backslash-quote, backslash-backslash and backslash-n; payloads using
other escapes fall outside the modelled subset and count as malformed,
which the source treats leniently anyway. -/
def jsonStringRest : List Char → Option (List Char × List Char)
| [] => none
| '"' :: rest => some ([], rest)
| '\\' :: esc :: rest =>
  match esc with
  | '"' => (jsonStringRest rest).map (fun p => ('"' :: p.1, p.2))
  | '\\' => (jsonStringRest rest).map (fun p => ('\\' :: p.1, p.2))
  | 'n' => (jsonStringRest rest).map (fun p => ('\n' :: p.1, p.2))
  | _ => none
| c :: rest => (jsonStringRest rest).map (fun p => (c :: p.1, p.2))

/-- Composition serde_json::from_str::<Value> then get text then as_str
(http_engine.rs lines 240-241), for payloads of the exact shape an SSE
text fragment has; anything else is malformed and yields none, matching
the source's lenient fallthrough to the next line. -/
def parseTextJson (payload : List Char) : Option String :=
  match payload with
  | '{' :: '"' :: 't' :: 'e' :: 'x' :: 't' :: '"' :: ':' :: '"' :: rest =>
    match jsonStringRest rest with
    | some (content, ['}']) => some (String.mk content)
    | _ => none
  | _ => none

/-- Rust line.strip_prefix of the data tag. -/
def stripDataTag (line : List Char) : Option (List Char) :=
  match line with
  | 'd' :: 'a' :: 't' :: 'a' :: ':' :: ' ' :: rest => some rest
  | _ => none

/-- One line of an SSE chunk: the text fragment it carries, provided the
line has the data prefix and its payload parses with a text field
(http_engine.rs lines 239-246). -/
def extractDataText (line : List Char) : Option String :=
  (stripDataTag line).bind parseTextJson

/-- First line of the chunk that yields a fragment; the source's for loop
returns on the first hit. -/
def firstDataText : List (List Char) → Option String
| [] => none
| line :: rest =>
  match extractDataText line with
  | some t => some t
  | none => firstDataText rest

/-- Text of the GenerateResponse produced for one upstream byte chunk by
HttpEngineClient::generate_stream (http_engine.rs lines 233-253): the
first data-prefixed line whose payload parses, else the empty fragment. -/
def decodeChunkText (chunk : String) : String :=
  (firstDataText (rustLines chunk)).getD ""

/-- All fragments present in a chunk's data lines (used to express what
the backend actually sent). -/
def chunkDataTexts (chunk : String) : List String :=
  (rustLines chunk).filterMap extractDataText

/-- Concatenation of a list of strings. -/
def concatTexts : List String → String
| [] => ""
| s :: rest => s ++ concatTexts rest

/-- Modelled from the spec (comparison point for C3): the full generated
text the backend produced, read off the byte stream as the concatenation
of every data-line fragment of every received chunk. -/
def specBackendFullText (chunks : List String) : String :=
  concatTexts (chunks.map (fun c => concatTexts (chunkDataTexts c)))

/-- Fragment texts delivered by the engine-client stream decoding for a
whole upstream byte-chunk list. -/
def decodeStreamTexts (chunks : List String) : List String :=
  chunks.map decodeChunkText

/-- The GenerateResponse items HttpEngineClient::generate_stream yields
for a transport-error-free upstream byte stream (http_engine.rs lines
233-254): one response per byte chunk, carrying the decoded fragment. -/
def decodeStreamResponses (id : RequestId) (model : String)
    (chunks : List String) : List GenerateResponse :=
  chunks.map (fun c => (GenerateResponse.new id model).with_text (decodeChunkText c))

/-! ## HttpEngineClient state and operations (http_engine.rs) -/

/-- Association-list lookup for the client's handle-to-model-id HashMap. -/
def mapLookupN : List (Nat × String) → Nat → Option String
| [], _ => none
| (k, v) :: rest, key => if k = key then some v else mapLookupN rest key

/-- HashMap::insert: replace in place or append. -/
def mapInsertN : List (Nat × String) → Nat → String → List (Nat × String)
| [], key, v => [(key, v)]
| (k, v₀) :: rest, key, v =>
  if k = key then (key, v) :: rest else (k, v₀) :: mapInsertN rest key v

/-- HashMap::remove. -/
def mapRemoveN : List (Nat × String) → Nat → List (Nat × String)
| [], _ => []
| (k, v₀) :: rest, key =>
  if k = key then rest else (k, v₀) :: mapRemoveN rest key

/-- Mutable state of HttpEngineClient (http_engine.rs lines 39-45):
the handle-to-model-id map and the AtomicU64 handle counter. -/
structure HttpEngineClient where
  loaded_models : List (Nat × String)
  next_handle : Nat
deriving DecidableEq, Repr

/-- Modulus of the u64 handle counter. -/
def U64MOD : Nat := 2 ^ 64

/-- HttpEngineClient::new (http_engine.rs lines 48-56): empty map,
counter starting at 1. -/
def HttpEngineClient.new : HttpEngineClient :=
  { loaded_models := [], next_handle := 1 }

/-- HttpEngineClient::next_model_handle (http_engine.rs lines 58-60):
fetch_add on the u64 counter returns the old value and stores the
wrapped successor. -/
def next_model_handle (st : HttpEngineClient) : ModelHandle × HttpEngineClient :=
  (⟨st.next_handle⟩, { st with next_handle := (st.next_handle + 1) % U64MOD })

/-- HttpEngineClient::get_model_id (http_engine.rs lines 62-64). -/
def get_model_id (st : HttpEngineClient) (handle : ModelHandle) : Option String :=
  mapLookupN st.loaded_models handle.val

/-- Parsed body of the backend load endpoint (http_engine.rs
LoadModelResponse). -/
structure LoadModelResponse where
  model_id : String
  status : String
deriving DecidableEq, Repr

/-- Observable outcome of the load POST: transport error, or a response
with status, raw body, and the body's parse as LoadModelResponse (none
when the JSON does not decode). -/
inductive LoadHttpOutcome
| transportError (msg : String)
| response (status : Nat) (body : String) (parsed : Option LoadModelResponse)
deriving DecidableEq, Repr

/-- HttpEngineClient::load_model (http_engine.rs lines 66-111): POST the
path, fail as ModelLoadFailed on transport error, non-2xx status or
unparsable body; otherwise mint the next handle and record the
backend-reported model id under it. -/
def load_model (st : HttpEngineClient) (backend : LoadHttpOutcome) :
    Except Err ModelHandle × HttpEngineClient :=
  match backend with
  | .transportError e =>
    (.error (.ModelLoadFailed ("HTTP request failed: " ++ e)), st)
  | .response status body parsed =>
    if statusIsSuccess status then
      match parsed with
      | none => (.error (.ModelLoadFailed "Failed to parse response"), st)
      | some load_response =>
        let (handle, st₁) := next_model_handle st
        (.ok handle,
         { st₁ with
             loaded_models :=
               mapInsertN st₁.loaded_models handle.val load_response.model_id })
    else
      (.error (.ModelLoadFailed ("Status " ++ toString status ++ ": " ++ body)), st)

/-- HttpEngineClient::unload_model (http_engine.rs lines 113-141): error
if the handle is unknown; POST the unload; on transport error or non-2xx
status fail as InferenceFailed leaving the map alone; remove the mapping
only after a successful response. -/
def unload_model (st : HttpEngineClient) (handle : ModelHandle)
    (backend : HttpPlainOutcome) : Except Err Unit × HttpEngineClient :=
  match mapLookupN st.loaded_models handle.val with
  | none =>
    (.error (.ModelNotFound ("Handle " ++ toString handle.val ++ " not found")), st)
  | some _ =>
    match backend with
    | .transportError e =>
      (.error (.InferenceFailed ("HTTP request failed: " ++ e)), st)
    | .response status body =>
      if statusIsSuccess status then
        (.ok (), { st with loaded_models := mapRemoveN st.loaded_models handle.val })
      else
        (.error (.InferenceFailed ("Status " ++ toString status ++ ": " ++ body)), st)

/-- Whether an HTTP outcome is a response with a 2xx status. -/
def httpOutcomeSuccess : HttpPlainOutcome → Bool
| .transportError _ => false
| .response status _ => statusIsSuccess status

/-- Reachable-state invariant of HttpEngineClient: the u64 counter is at
least 1 and in range, and every recorded handle was minted earlier, so it
is positive and below the counter.  It holds for a fresh client and is
preserved by load_model as long as the counter has not wrapped. -/
def clientInv (st : HttpEngineClient) : Prop :=
  1 ≤ st.next_handle ∧ st.next_handle < U64MOD ∧
    ∀ p ∈ st.loaded_models, 1 ≤ p.1 ∧ p.1 < st.next_handle

/-- Observable outcome of the health GET: transport error, or a response
whose body parsed (or failed to parse) as JSON. -/
inductive HealthHttpOutcome
| transportError (msg : String)
| response (parsedBody : Option JLite)
deriving DecidableEq, Repr

/-- HttpEngineClient::health_check (http_engine.rs lines 259-273):
transport errors and parse failures degrade to Ok false; otherwise the
named availability field is read as a bool, defaulting to false. -/
def health_check (backend : HealthHttpOutcome) (availability_field : String) :
    Except Err Bool :=
  match backend with
  | .transportError _ => .ok false
  | .response none => .ok false
  | .response (some json) =>
    .ok (((jGet json availability_field).bind jAsBool).getD false)

/-- OpenAIClient::health (vllama-core/src/openai.rs lines 140-147):
Ok of status-is-success, transport errors degrading to Ok false. -/
def openaiClientHealth (backend : HttpPlainOutcome) : Except Err Bool :=
  match backend with
  | .transportError _ => .ok false
  | .response status _ => .ok (statusIsSuccess status)

/-! ## The gateway model-pull path (vllama-server/src/api.rs pull) -/

/-- Association-list lookup for the LoadedModelsMap (the DashMap from
model name to handle held in ServerState). -/
def mapLookupS : List (String × ModelHandle) → String → Option ModelHandle
| [], _ => none
| (k, v) :: rest, key => if k = key then some v else mapLookupS rest key

/-- DashMap::insert: replace in place or append. -/
def mapInsertS : List (String × ModelHandle) → String → ModelHandle →
    List (String × ModelHandle)
| [], key, v => [(key, v)]
| (k, v₀) :: rest, key, v =>
  if k = key then (key, v) :: rest else (k, v₀) :: mapInsertS rest key v

/-- Environment of one pull request: the downloader outcome (a local
model path, or a failure) and the engine load_model outcome for that
path. -/
structure PullEnv where
  downloadResult : Except String String
  loadResult : Except Err ModelHandle
deriving DecidableEq, Repr

/-- HTTP-level outcome of the pull handler, success body or error body. -/
inductive PullOutcome
| successResp
| errorResp (msg : String)
deriving DecidableEq, Repr

/-- Result of one pull: the response, the LoadedModelsMap afterwards, and
the number of engine load_model calls the handler issued. -/
structure PullResult where
  outcome : PullOutcome
  models : List (String × ModelHandle)
  loadCalls : Nat
deriving DecidableEq, Repr

/-- The pull handler (api.rs lines 338-452), non-streaming continuation.
The contains_key short-circuit (lines 344-351) runs before the handler
splits on the stream flag, so it covers both branches; the streaming
branch drives the same download-load-insert sequence from a spawned
task.  On a cache hit the handler answers success at once, touching
neither the downloader nor the engine; otherwise it downloads, then
loads under the engine lock, and inserts the minted handle under the
requested name only when the load succeeded. -/
def pullNonStreaming (models : List (String × ModelHandle)) (name : String)
    (env : PullEnv) : PullResult :=
  match mapLookupS models name with
  | some _ => { outcome := .successResp, models := models, loadCalls := 0 }
  | none =>
    match env.downloadResult with
    | .error e =>
      { outcome := .errorResp ("Failed to download model from HuggingFace: " ++ e),
        models := models, loadCalls := 0 }
    | .ok _model_path =>
      match env.loadResult with
      | .ok handle =>
        { outcome := .successResp,
          models := mapInsertS models name handle, loadCalls := 1 }
      | .error _ =>
        { outcome := .errorResp "Downloaded model successfully but failed to load it",
          models := models, loadCalls := 1 }

/-- VllmOpenAIEngine::load_model (vllm_openai.rs lines 98-103): the
backend owns model lifetime, so load is a no-op returning the stable
placeholder handle zero. -/
def vllmOpenAILoadModel : Except Err ModelHandle := .ok ⟨0⟩

/-! ## Backend supervision and the health gate (vllama-cli serve.rs) -/

/-- Inner loop of wait_for_vllm_ready (serve.rs lines 338-357): given the
poll outcomes as a function of the attempt index, try the given number
of remaining attempts starting at the given index, one per one-second
sleep, and report whether any poll answered a success status. -/
def wait_loop (polls : Nat → Bool) : Nat → Nat → Bool
| 0, _ => false
| remaining + 1, i => if polls i then true else wait_loop polls remaining (i + 1)

/-- wait_for_vllm_ready (serve.rs): a budget of 120 one-second attempts. -/
def wait_for_vllm_ready (polls : Nat → Bool) : Bool :=
  wait_loop polls 120 0

/-- Observable events of the serve command's startup path. -/
inductive ServeEvent
| spawnBackend
| sigtermGroup
| sleepGrace
| sigkillGroup
| serveStart
| startupError
deriving DecidableEq, Repr

/-- kill_process_tree (serve.rs lines 227-246, unix): SIGTERM to the
negative process-group id, a two-second grace sleep, then SIGKILL to the
same group. -/
def kill_process_tree_events : List ServeEvent :=
  [.sigtermGroup, .sleepGrace, .sigkillGroup]

/-- Startup path of the serve command (serve.rs run, lines 14-88) for
the supervised case (a model given, the no-vllm flag unset): spawn the
backend in its own process group, run the health gate, and on a failed
gate kill the whole process tree before bailing out of startup; the
server is started only behind a passed gate. -/
def runStartup (no_vllm : Bool) (model : Option String) (polls : Nat → Bool) :
    List ServeEvent × Except String Unit :=
  if no_vllm then
    ([.serveStart], .ok ())
  else
    match model with
    | none => ([.serveStart], .ok ())
    | some _ =>
      if wait_for_vllm_ready polls then
        ([.spawnBackend, .serveStart], .ok ())
      else
        (.spawnBackend :: kill_process_tree_events ++ [.startupError],
         .error "vLLM server failed to start within 120 seconds")

/-! ## Engine-lock discipline of the route handlers (api.rs, state.rs)

ServerState (state.rs lines 7-11) guards the single engine behind a
tokio Mutex.  Each handler's interaction with that mutex and with the
engine is recorded as a trace of lock actions.  In the streaming
handlers the MutexGuard is a local of the handler body: it is dropped
when the handler returns the SSE response, while the unfold closure owns
only the boxed upstream stream, so the per-chunk polls that produce the
SSE frames run after the release.  The traces below transcribe that
order. -/

/-- Ways a handler touches the engine client. -/
inductive EngineTouch
| loadCall
| generateCall
| chatCompletionCall
| streamOpen
| streamChunk
deriving DecidableEq, Repr

/-- One step of a handler's interaction with the engine mutex. -/
inductive LockAction
| acquire
| touch (t : EngineTouch)
| release
deriving DecidableEq, Repr

/-- Trace of the Ollama-generate handler (api.rs generate): lock, one
generate or stream-open call, unlock; a streaming response then polls
its chunks after the guard is gone. -/
def generateTrace (stream : Bool) (chunks : Nat) : List LockAction :=
  if stream then
    [.acquire, .touch .streamOpen, .release]
      ++ List.replicate chunks (.touch .streamChunk)
  else
    [.acquire, .touch .generateCall, .release]

/-- Trace of the Ollama-chat handler (api.rs chat): the streaming branch
matches generate; the non-streaming branch calls
generate_chat_completion under the lock. -/
def chatTrace (stream : Bool) (chunks : Nat) : List LockAction :=
  if stream then
    [.acquire, .touch .streamOpen, .release]
      ++ List.replicate chunks (.touch .streamChunk)
  else
    [.acquire, .touch .chatCompletionCall, .release]

/-- Trace of the OpenAI chat-completions handler (api.rs
openai_chat_completions). -/
def openaiChatCompletionsTrace (stream : Bool) (chunks : Nat) : List LockAction :=
  if stream then
    [.acquire, .touch .streamOpen, .release]
      ++ List.replicate chunks (.touch .streamChunk)
  else
    [.acquire, .touch .generateCall, .release]

/-- Trace of the engine part of the pull handler on a cache miss (api.rs
lines 382-386 and 425-434): the load call happens under the lock in both
the spawned-task and the inline branch. -/
def pullLoadTrace : List LockAction := [.acquire, .touch .loadCall, .release]

/-- The claim's lock-holding property: scanning the trace with the
current lock depth, every engine touch (chunk polls included) must find
the lock held. -/
def allTouchesLockedAux (depth : Nat) : List LockAction → Bool
| [] => true
| .acquire :: rest => allTouchesLockedAux (depth + 1) rest
| .release :: rest => allTouchesLockedAux (depth - 1) rest
| .touch _ :: rest => decide (0 < depth) && allTouchesLockedAux depth rest

/-- A trace in which every engine touch happens while the mutex is held. -/
def allEngineTouchesLocked (tr : List LockAction) : Bool :=
  allTouchesLockedAux 0 tr

/-- The discipline the handlers actually follow: load, generate,
chat-completion and stream-open touches happen with the lock held, and
stream-chunk polls happen with the lock free. -/
def lockDisciplineAux (depth : Nat) : List LockAction → Bool
| [] => true
| .acquire :: rest => lockDisciplineAux (depth + 1) rest
| .release :: rest => lockDisciplineAux (depth - 1) rest
| .touch .streamChunk :: rest => decide (depth = 0) && lockDisciplineAux depth rest
| .touch _ :: rest => decide (0 < depth) && lockDisciplineAux depth rest

/-- A trace that locks every engine call but drives stream chunks
outside the critical section. -/
def callsLockedChunksUnlocked (tr : List LockAction) : Bool :=
  lockDisciplineAux 0 tr

/-! ## Helper lemmas -/

theorem string_append_empty (s : String) : s ++ "" = s := by
  cases s with
  | mk data => show String.mk (data ++ []) = String.mk data
               rw [List.append_nil]

theorem concatTexts_cons (s : String) (l : List String) :
    concatTexts (s :: l) = s ++ concatTexts l := rfl

theorem mapLookupN_eq_none_iff (l : List (Nat × String)) (k : Nat) :
    mapLookupN l k = none ↔ k ∉ l.map Prod.fst := by
  induction l with
  | nil => simp [mapLookupN]
  | cons p rest ih =>
    obtain ⟨k₀, v₀⟩ := p
    rw [List.map_cons, List.mem_cons, not_or]
    by_cases h : k₀ = k
    · subst h
      simp [mapLookupN]
    · simp only [mapLookupN, if_neg h]
      rw [ih]
      constructor
      · intro hk
        exact ⟨fun he => h he.symm, hk⟩
      · intro hk
        exact hk.2

theorem mapLookupN_insert_self (l : List (Nat × String)) (k : Nat) (v : String) :
    mapLookupN (mapInsertN l k v) k = some v := by
  induction l with
  | nil => simp [mapInsertN, mapLookupN]
  | cons p rest ih =>
    obtain ⟨k₀, v₀⟩ := p
    by_cases h : k₀ = k <;> simp [mapInsertN, mapLookupN, h, ih]

theorem mapLookupN_insert_other (l : List (Nat × String)) (k k₂ : Nat) (v : String)
    (hne : k₂ ≠ k) : mapLookupN (mapInsertN l k v) k₂ = mapLookupN l k₂ := by
  induction l with
  | nil => simp [mapInsertN, mapLookupN, Ne.symm hne]
  | cons p rest ih =>
    obtain ⟨k₀, v₀⟩ := p
    by_cases h : k₀ = k
    · subst h
      simp [mapInsertN, mapLookupN, Ne.symm hne]
    · simp only [mapInsertN, if_neg h]
      by_cases h₂ : k₀ = k₂ <;> simp [mapLookupN, h₂, ih]

theorem mem_mapInsertN (l : List (Nat × String)) (k : Nat) (v : String) (p : Nat × String)
    (hp : p ∈ mapInsertN l k v) : p = (k, v) ∨ p ∈ l := by
  induction l with
  | nil => simpa [mapInsertN] using hp
  | cons q rest ih =>
    obtain ⟨k₀, v₀⟩ := q
    by_cases h : k₀ = k
    · simp [mapInsertN, h] at hp
      rcases hp with hp | hp
      · exact .inl (by simp [hp])
      · exact .inr (.tail _ hp)
    · simp only [mapInsertN, if_neg h, List.mem_cons] at hp
      rcases hp with hp | hp
      · exact .inr (by simp [hp])
      · rcases ih hp with hp | hp
        · exact .inl hp
        · exact .inr (.tail _ hp)

theorem mapRemoveN_lookup_self (l : List (Nat × String)) (k : Nat)
    (hnodup : (l.map Prod.fst).Nodup) : mapLookupN (mapRemoveN l k) k = none := by
  induction l with
  | nil => rfl
  | cons p rest ih =>
    obtain ⟨k₀, v₀⟩ := p
    rw [List.map_cons, List.nodup_cons] at hnodup
    by_cases h : k₀ = k
    · subst h
      simp only [mapRemoveN, if_pos rfl]
      exact (mapLookupN_eq_none_iff rest k₀).mpr hnodup.1
    · simp only [mapRemoveN, if_neg h, mapLookupN, if_neg h]
      exact ih hnodup.2

theorem keys_mapInsertS (l : List (String × ModelHandle)) (k : String) (v : ModelHandle) :
    (mapInsertS l k v).map Prod.fst =
      if k ∈ l.map Prod.fst then l.map Prod.fst else l.map Prod.fst ++ [k] := by
  induction l with
  | nil => simp [mapInsertS]
  | cons p rest ih =>
    obtain ⟨k₀, v₀⟩ := p
    by_cases hk : k₀ = k
    · subst hk
      simp [mapInsertS]
    · have hne : ¬k = k₀ := fun h => hk h.symm
      by_cases hmem : k ∈ rest.map Prod.fst
      · simp [mapInsertS, hk, hne, hmem, ih]
      · simp [mapInsertS, hk, hne, hmem, ih]

theorem mapInsertS_keys_nodup (l : List (String × ModelHandle)) (k : String)
    (v : ModelHandle) (hnodup : (l.map Prod.fst).Nodup) :
    ((mapInsertS l k v).map Prod.fst).Nodup := by
  rw [keys_mapInsertS]
  by_cases hmem : k ∈ l.map Prod.fst
  · simpa [hmem] using hnodup
  · rw [if_neg hmem]
    refine List.Nodup.append hnodup (List.nodup_singleton k) ?_
    intro a ha hb
    rw [List.mem_singleton] at hb
    subst hb
    exact hmem ha

/-! ## Frame-sequence lemmas for the three streaming translators -/

theorem ollamaGenerateFrames_countP (model : String)
    (us : List (Except Err GenerateResponse)) :
    ∀ count, (ollamaGenerateFrames model count us).countP (fun f => f.done) =
      if us.all exceptIsOk then 1 else 0 := by
  induction us with
  | nil =>
    intro count
    simp [ollamaGenerateFrames]
  | cons u rest ih =>
    intro count
    cases u with
    | ok r =>
      simp [ollamaGenerateFrames, List.countP_cons, ih (count + 1), exceptIsOk]
    | error e =>
      simp [ollamaGenerateFrames, exceptIsOk]

theorem ollamaGenerateFrames_dropLast (model : String)
    (us : List (Except Err GenerateResponse)) :
    ∀ count, ∀ f ∈ (ollamaGenerateFrames model count us).dropLast,
      f.done = false := by
  induction us with
  | nil =>
    intro count f hf
    simp [ollamaGenerateFrames] at hf
  | cons u rest ih =>
    intro count f hf
    cases u with
    | ok r =>
      rw [ollamaGenerateFrames] at hf
      rcases hrest : ollamaGenerateFrames model (count + 1) rest with _ | ⟨x, xs⟩
      · rw [hrest] at hf
        simp at hf
      · rw [hrest, List.dropLast_cons₂, List.mem_cons] at hf
        rcases hf with hf | hf
        · rw [hf]
        · exact ih (count + 1) f (hrest ▸ hf)
    | error e =>
      simp [ollamaGenerateFrames] at hf

theorem ollamaChatFrames_countP (model : String)
    (us : List (Except Err GenerateResponse)) :
    ∀ acc count, (ollamaChatFrames model acc count us).countP (fun f => f.done) =
      if us.all exceptIsOk then 1 else 0 := by
  induction us with
  | nil =>
    intro acc count
    simp [ollamaChatFrames]
  | cons u rest ih =>
    intro acc count
    cases u with
    | ok r =>
      simp [ollamaChatFrames, List.countP_cons, ih (acc ++ r.text) (count + 1),
        exceptIsOk]
    | error e =>
      simp [ollamaChatFrames, exceptIsOk]

theorem ollamaChatFrames_dropLast (model : String)
    (us : List (Except Err GenerateResponse)) :
    ∀ acc count, ∀ f ∈ (ollamaChatFrames model acc count us).dropLast,
      f.done = false := by
  induction us with
  | nil =>
    intro acc count f hf
    simp [ollamaChatFrames] at hf
  | cons u rest ih =>
    intro acc count f hf
    cases u with
    | ok r =>
      rw [ollamaChatFrames] at hf
      rcases hrest : ollamaChatFrames model (acc ++ r.text) (count + 1) rest
        with _ | ⟨x, xs⟩
      · rw [hrest] at hf
        simp at hf
      · rw [hrest, List.dropLast_cons₂, List.mem_cons] at hf
        rcases hf with hf | hf
        · rw [hf]
        · exact ih (acc ++ r.text) (count + 1) f (hrest ▸ hf)
    | error e =>
      simp [ollamaChatFrames] at hf

theorem openaiChatFrames_countP (id : String) (created : Nat) (model : String)
    (us : List (Except Err GenerateResponse)) :
    ∀ count, (openaiChatFrames id created model count us).countP openaiChunkIsTerminal =
      if us.all exceptIsOk then 1 else 0 := by
  induction us with
  | nil =>
    intro count
    simp [openaiChatFrames, openaiChunkIsTerminal]
  | cons u rest ih =>
    intro count
    cases u with
    | ok r =>
      simp [openaiChatFrames, List.countP_cons, ih (count + 1), exceptIsOk,
        openaiChunkIsTerminal]
    | error e =>
      simp [openaiChatFrames, exceptIsOk]

theorem openaiChatFrames_dropLast (id : String) (created : Nat) (model : String)
    (us : List (Except Err GenerateResponse)) :
    ∀ count, ∀ f ∈ (openaiChatFrames id created model count us).dropLast,
      openaiChunkIsTerminal f = false := by
  induction us with
  | nil =>
    intro count f hf
    simp [openaiChatFrames] at hf
  | cons u rest ih =>
    intro count f hf
    cases u with
    | ok r =>
      rw [openaiChatFrames] at hf
      rcases hrest : openaiChatFrames id created model (count + 1) rest
        with _ | ⟨x, xs⟩
      · rw [hrest] at hf
        simp at hf
      · rw [hrest, List.dropLast_cons₂, List.mem_cons] at hf
        rcases hf with hf | hf
        · rw [hf]
          rfl
        · exact ih (count + 1) f (hrest ▸ hf)
    | error e =>
      simp [openaiChatFrames] at hf

theorem ollamaGenerateFrames_texts (model : String) (rs : List GenerateResponse) :
    ∀ count, ((ollamaGenerateFrames model count (rs.map .ok)).filter
        (fun f => !f.done)).map (fun f => f.response) =
      rs.map (fun r => r.text) := by
  induction rs with
  | nil =>
    intro count
    simp [ollamaGenerateFrames]
  | cons r rest ih =>
    intro count
    simp [ollamaGenerateFrames, List.filter_cons, ih (count + 1)]

theorem ollamaChatFrames_texts (model : String) (rs : List GenerateResponse) :
    ∀ acc count, ((ollamaChatFrames model acc count (rs.map .ok)).filter
        (fun f => !f.done)).map (fun f => f.message.content) =
      rs.map (fun r => r.text) := by
  induction rs with
  | nil =>
    intro acc count
    simp [ollamaChatFrames]
  | cons r rest ih =>
    intro acc count
    simp [ollamaChatFrames, List.filter_cons, ih (acc ++ r.text) (count + 1),
      ChatMessage.assistant]

theorem openaiChunkIsTerminal_content (id : String) (created : Nat)
    (model text : String) :
    openaiChunkIsTerminal
      { id := id, object := "chat.completion.chunk", created := created,
        model := model,
        choices := [{ index := 0,
                      delta := { role := none, content := some text },
                      finish_reason := none }] } = false := rfl

theorem openaiChunkText_content (id : String) (created : Nat)
    (model text : String) :
    openaiChunkText
      { id := id, object := "chat.completion.chunk", created := created,
        model := model,
        choices := [{ index := 0,
                      delta := { role := none, content := some text },
                      finish_reason := none }] } = text := rfl

theorem openaiChatFrames_texts (id : String) (created : Nat) (model : String)
    (rs : List GenerateResponse) :
    ∀ count, ((openaiChatFrames id created model count (rs.map .ok)).filter
        (fun c => !openaiChunkIsTerminal c)).map openaiChunkText =
      rs.map (fun r => r.text) := by
  induction rs with
  | nil =>
    intro count
    simp [openaiChatFrames, openaiChunkIsTerminal]
  | cons r rest ih =>
    intro count
    simp only [List.map_cons, openaiChatFrames, List.filter_cons,
      openaiChunkIsTerminal_content, Bool.not_false, if_pos]
    rw [openaiChunkText_content, ih (count + 1)]

theorem firstDataText_eq_head (lines : List (List Char)) :
    firstDataText lines = (lines.filterMap extractDataText).head? := by
  induction lines with
  | nil => rfl
  | cons l rest ih =>
    cases hl : extractDataText l with
    | some t => simp [firstDataText, hl, List.filterMap_cons]
    | none => simp [firstDataText, hl, List.filterMap_cons, ih]

theorem decodeChunkText_eq_concat_of_le_one (c : String)
    (hc : (chunkDataTexts c).length ≤ 1) :
    decodeChunkText c = concatTexts (chunkDataTexts c) := by
  rw [decodeChunkText, firstDataText_eq_head]
  change ((chunkDataTexts c).head?).getD "" = concatTexts (chunkDataTexts c)
  rcases hcd : chunkDataTexts c with _ | ⟨t, ts⟩
  · rfl
  · rcases ts with _ | ⟨t₂, ts₂⟩
    · simp [concatTexts, string_append_empty]
    · rw [hcd] at hc
      simp at hc

theorem decode_concat_eq_backend_of_le_one (chunks : List String)
    (h : ∀ c ∈ chunks, (chunkDataTexts c).length ≤ 1) :
    concatTexts (decodeStreamTexts chunks) = specBackendFullText chunks := by
  induction chunks with
  | nil => rfl
  | cons c rest ih =>
    have hc := h c (List.mem_cons_self c rest)
    have hrest := ih (fun x hx => h x (List.mem_cons_of_mem c hx))
    simp only [decodeStreamTexts, specBackendFullText, List.map_cons, concatTexts]
    rw [decodeChunkText_eq_concat_of_le_one c hc]
    simp only [decodeStreamTexts, specBackendFullText] at hrest
    rw [hrest]

theorem decodeStreamResponses_texts (id : RequestId) (model : String)
    (chunks : List String) :
    (decodeStreamResponses id model chunks).map (fun r => r.text) =
      decodeStreamTexts chunks := by
  simp [decodeStreamResponses, decodeStreamTexts, GenerateResponse.new,
    GenerateResponse.with_text, List.map_map]

/-! ## C8 — chat prompt rendering -/

/-- C8, counterexample: for a llama-family model and the single user
message hi, the prompt the gateway's chat handler actually builds (the
generic Role-colon-content joiner of api.rs) differs from the
model-family-specific template the claim says it uses (the Llama3
template that get_template_for_model selects for this name). -/
theorem c8_counterexample :
    chatStreamPrompt "llama" [ChatMessage.user "hi"] ≠
      specModelSpecificPrompt "llama" [ChatMessage.user "hi"] := by
  decide

/-- C8, amended: before calling generate for a streaming Ollama-chat
request the gateway renders the messages with the generic
Role-colon-content joiner regardless of the model name; that joiner
coincides with the SimpleChatTemplate fallback of templates.rs, and the
family-specific template selection is never consulted by the handler. -/
theorem c8_gateway_prompt_is_generic_joiner (model model₂ : String)
    (messages : List ChatMessage) :
    chatStreamPrompt model messages = simpleChatTemplateApply messages ∧
    chatStreamPrompt model messages = chatStreamPrompt model₂ messages :=
  ⟨rfl, rfl⟩

/-! ## C10 — hardcoded usage and finish reason -/

/-- C10: every successful non-streaming OpenAI chat-completions response
carries usage counts that are all zero and the finish reason stop, for
every backend response whatsoever (its stats and finish reason are
ignored by the handler). -/
theorem c10_usage_zero_finish_stop (request_id : String) (created : Nat)
    (model : String) (resp : GenerateResponse) :
    (openaiChatNonStreamResponse request_id created model resp).usage =
        some { prompt_tokens := 0, completion_tokens := 0, total_tokens := 0 } ∧
    ((openaiChatNonStreamResponse request_id created model resp).choices.map
        (fun c => c.finish_reason)) = ["stop"] :=
  ⟨rfl, rfl⟩

/-! ## C7 — health checks never raise -/

/-- C7: both health checks return Ok with a boolean for every outcome of
the underlying HTTP call; a transport failure, a JSON parse failure, or
a missing or non-boolean availability field yields Ok false rather than
an error. -/
theorem c7_health_check_never_errors (backend : HealthHttpOutcome) (field : String) :
    exceptIsOk (health_check backend field) = true ∧
    (∀ msg, backend = .transportError msg → health_check backend field = .ok false) ∧
    (backend = .response none → health_check backend field = .ok false) ∧
    (∀ json, backend = .response (some json) →
      (jGet json field).bind jAsBool = none → health_check backend field = .ok false) ∧
    (∀ plain : HttpPlainOutcome, exceptIsOk (openaiClientHealth plain) = true) ∧
    (∀ msg, openaiClientHealth (.transportError msg) = .ok false) := by
  refine ⟨?_, ?_, ?_, ?_, ?_, ?_⟩
  · cases backend with
    | transportError msg => rfl
    | response parsedBody => cases parsedBody <;> rfl
  · intro msg h
    subst h
    rfl
  · intro h
    subst h
    rfl
  · intro json h hnone
    subst h
    simp [health_check, hnone]
  · intro plain
    cases plain <;> rfl
  · intro msg
    rfl

/-- C7, witness: the theorem applied at a transport failure and at a
healthy-looking body lacking the availability field. -/
theorem c7_witness :
    health_check (.transportError "connection refused") "vllm_available" = .ok false ∧
    health_check (.response (some (.jobj [("status", .jstr "ok")]))) "vllm_available"
      = .ok false :=
  ⟨(c7_health_check_never_errors (.transportError "connection refused")
      "vllm_available").2.1 "connection refused" rfl,
   (c7_health_check_never_errors (.response (some (.jobj [("status", .jstr "ok")])))
      "vllm_available").2.2.2.1 (.jobj [("status", .jstr "ok")]) rfl (by decide)⟩

/-! ## C6 — unload error handling -/

/-- C6: unload_model on an absent handle answers ModelNotFound and leaves
the client untouched; with the handle present, the call succeeds exactly
when the backend answered 2xx, any transport error or non-2xx status
yields InferenceFailed with the map unchanged, and the handle's mapping
is gone afterwards exactly when the call succeeded. -/
theorem c6_unload_model_semantics (st : HttpEngineClient) (handle : ModelHandle)
    (backend : HttpPlainOutcome)
    (hnodup : (st.loaded_models.map Prod.fst).Nodup) :
    (mapLookupN st.loaded_models handle.val = none →
      (unload_model st handle backend).1 =
        .error (.ModelNotFound ("Handle " ++ toString handle.val ++ " not found")) ∧
      (unload_model st handle backend).2 = st) ∧
    (mapLookupN st.loaded_models handle.val ≠ none →
      ((unload_model st handle backend).1 = .ok () ↔ httpOutcomeSuccess backend = true) ∧
      (httpOutcomeSuccess backend = false →
        (∃ msg, (unload_model st handle backend).1 = .error (.InferenceFailed msg)) ∧
        (unload_model st handle backend).2 = st) ∧
      (mapLookupN (unload_model st handle backend).2.loaded_models handle.val = none ↔
        (unload_model st handle backend).1 = .ok ())) := by
  constructor
  · intro hnone
    simp [unload_model, hnone]
  · intro hsome
    obtain ⟨model_id, hm⟩ := Option.ne_none_iff_exists'.mp hsome
    cases backend with
    | transportError msg =>
      refine ⟨?_, ?_, ?_⟩
      · simp [unload_model, hm, httpOutcomeSuccess]
      · intro _
        exact ⟨⟨"HTTP request failed: " ++ msg, by simp [unload_model, hm]⟩,
               by simp [unload_model, hm]⟩
      · simp [unload_model, hm, hm.symm ▸ hsome]
    | response status body =>
      by_cases hs : statusIsSuccess status = true
      · refine ⟨?_, ?_, ?_⟩
        · simp [unload_model, hm, httpOutcomeSuccess, hs]
        · intro hfalse
          rw [httpOutcomeSuccess] at hfalse
          rw [hs] at hfalse
          cases hfalse
        · simp only [unload_model, hm, hs, if_pos]
          constructor
          · intro _
            trivial
          · intro _
            exact mapRemoveN_lookup_self st.loaded_models handle.val hnodup
      · rw [Bool.not_eq_true] at hs
        refine ⟨?_, ?_, ?_⟩
        · simp [unload_model, hm, httpOutcomeSuccess, hs]
        · intro _
          exact ⟨⟨"Status " ++ toString status ++ ": " ++ body,
                  by simp [unload_model, hm, hs]⟩,
                 by simp [unload_model, hm, hs]⟩
        · simp [unload_model, hm, hs, hsome]

/-- C6, witness: the theorem applied to a one-entry client, for a
successful backend unload (mapping removed, Ok returned) and for a
failed one (map untouched, InferenceFailed). -/
theorem c6_witness :
    (unload_model ⟨[(1, "m")], 2⟩ ⟨1⟩ (.response 200 "")).1 = .ok () ∧
    (unload_model ⟨[(1, "m")], 2⟩ ⟨1⟩ (.response 500 "boom")).2 =
      (⟨[(1, "m")], 2⟩ : HttpEngineClient) :=
  ⟨((c6_unload_model_semantics ⟨[(1, "m")], 2⟩ ⟨1⟩ (.response 200 "")
      (by decide)).2 (by decide)).1.mpr (by decide),
   (((c6_unload_model_semantics ⟨[(1, "m")], 2⟩ ⟨1⟩ (.response 500 "boom")
      (by decide)).2 (by decide)).2.1 (by decide)).2⟩

/-! ## C9 — handle freshness -/

/-- C9: from any reachable client state, a successful load_model returns
the current counter value as the new handle; that handle is absent from
the map beforehand, so the insertion overwrites nothing; every other
handle's lookup is unchanged; the invariant persists while the u64
counter has not wrapped; and a fresh client satisfies the invariant with
the counter at 1. -/
theorem c9_load_model_mints_fresh_handles (st : HttpEngineClient)
    (status : Nat) (body : String) (lr : LoadModelResponse)
    (hinv : clientInv st) (hstatus : statusIsSuccess status = true) :
    (load_model st (.response status body (some lr))).1 = .ok ⟨st.next_handle⟩ ∧
    mapLookupN st.loaded_models st.next_handle = none ∧
    mapLookupN (load_model st (.response status body (some lr))).2.loaded_models
        st.next_handle = some lr.model_id ∧
    (∀ k, k ≠ st.next_handle →
      mapLookupN (load_model st (.response status body (some lr))).2.loaded_models k =
        mapLookupN st.loaded_models k) ∧
    (st.next_handle + 1 < U64MOD →
      clientInv (load_model st (.response status body (some lr))).2) ∧
    clientInv HttpEngineClient.new := by
  obtain ⟨hone, hlt, hkeys⟩ := hinv
  have hfresh : mapLookupN st.loaded_models st.next_handle = none := by
    rw [mapLookupN_eq_none_iff]
    intro hmem
    obtain ⟨p, hp, hfst⟩ := List.mem_map.mp hmem
    exact absurd (hfst ▸ (hkeys p hp).2) (lt_irrefl _)
  refine ⟨?_, hfresh, ?_, ?_, ?_, ?_⟩
  · simp [load_model, hstatus, next_model_handle]
  · simp only [load_model, hstatus, if_pos, next_model_handle]
    exact mapLookupN_insert_self _ _ _
  · intro k hk
    simp only [load_model, hstatus, if_pos, next_model_handle]
    exact mapLookupN_insert_other _ _ _ _ hk
  · intro hnowrap
    simp only [load_model, hstatus, if_pos, next_model_handle]
    have hmod : (st.next_handle + 1) % U64MOD = st.next_handle + 1 :=
      Nat.mod_eq_of_lt hnowrap
    refine ⟨?_, ?_, ?_⟩
    · simp only [hmod]
      omega
    · simp only [hmod]
      exact hnowrap
    · intro p hp
      simp only [hmod]
      rcases mem_mapInsertN _ _ _ p hp with h | h
      · subst h
        exact ⟨hone, Nat.lt_succ_self _⟩
      · exact ⟨(hkeys p h).1, Nat.lt_succ_of_lt (hkeys p h).2⟩
  · refine ⟨Nat.le_refl 1, ?_, ?_⟩
    · decide
    · intro p hp
      cases hp

/-- C9, witness: the theorem applied to a fresh client and a successful
backend load; the minted handle is 1. -/
theorem c9_witness :
    (load_model HttpEngineClient.new (.response 200 "" (some ⟨"model-x", "ok"⟩))).1 =
      .ok ⟨1⟩ :=
  (c9_load_model_mints_fresh_handles HttpEngineClient.new 200 "" ⟨"model-x", "ok"⟩
    ⟨by decide, by decide, by intro p hp; cases hp⟩ (by decide)).1

/-! ## C5 — idempotent pull by name -/

/-- C5: when the requested name is already present in the LoadedModelsMap
the pull handler answers success at once, issues no engine load call,
and leaves the map unchanged, so the name still resolves to the same
handle; moreover every pull preserves key uniqueness of the map, so the
map holds at most one handle per name at any time. -/
theorem c5_pull_idempotent_by_name (models : List (String × ModelHandle))
    (name : String) (env : PullEnv) (handle : ModelHandle)
    (hmem : mapLookupS models name = some handle) :
    pullNonStreaming models name env =
      { outcome := .successResp, models := models, loadCalls := 0 } ∧
    mapLookupS (pullNonStreaming models name env).models name = some handle ∧
    (∀ (models₂ : List (String × ModelHandle)) (name₂ : String) (env₂ : PullEnv),
      (models₂.map Prod.fst).Nodup →
      ((pullNonStreaming models₂ name₂ env₂).models.map Prod.fst).Nodup) := by
  have h₁ : pullNonStreaming models name env =
      { outcome := .successResp, models := models, loadCalls := 0 } := by
    simp [pullNonStreaming, hmem]
  refine ⟨h₁, ?_, ?_⟩
  · rw [h₁]
    exact hmem
  · intro models₂ name₂ env₂ hnodup
    rcases hlook : mapLookupS models₂ name₂ with _ | h₂
    · rcases hdl : env₂.downloadResult with e | path
      · simpa [pullNonStreaming, hlook, hdl] using hnodup
      · rcases hld : env₂.loadResult with e | h₃
        · simpa [pullNonStreaming, hlook, hdl, hld] using hnodup
        · simp only [pullNonStreaming, hlook, hdl, hld]
          exact mapInsertS_keys_nodup models₂ name₂ h₃ hnodup
    · simpa [pullNonStreaming, hlook] using hnodup

/-- C5, witness: the theorem applied to a map already holding the name;
the second pull answers success with zero load calls and the map intact. -/
theorem c5_witness :
    pullNonStreaming [("demo", ⟨1⟩)] "demo" ⟨.ok "/tmp/demo", .ok ⟨2⟩⟩ =
      { outcome := .successResp, models := [("demo", ⟨1⟩)], loadCalls := 0 } :=
  (c5_pull_idempotent_by_name [("demo", ⟨1⟩)] "demo" ⟨.ok "/tmp/demo", .ok ⟨2⟩⟩ ⟨1⟩
    (by decide)).1

/-! ## C4 — failed health gate -/

theorem wait_loop_false (polls : Nat → Bool) :
    ∀ (n start : Nat), (∀ i, start ≤ i → i < start + n → polls i = false) →
    wait_loop polls n start = false := by
  intro n
  induction n with
  | zero => intro start _; rfl
  | succ m ih =>
    intro start hfail
    have h0 : polls start = false := hfail start (Nat.le_refl _) (by omega)
    rw [wait_loop, h0]
    simp only [Bool.false_eq_true, if_false]
    exact ih (start + 1) (fun i h₁ h₂ => hfail i (by omega) (by omega))

/-- C4: when no poll among the 120 one-second attempts answers a success
status, the health gate reports false, the serve command's startup ends
in an error instead of reaching the serving phase, and the trace shows
the forced kill of the spawned process group strictly before the startup
error propagates. -/
theorem c4_failed_health_gate (polls : Nat → Bool) (model : String)
    (hfail : ∀ i, i < 120 → polls i = false) :
    wait_for_vllm_ready polls = false ∧
    (runStartup false (some model) polls).2 =
      .error "vLLM server failed to start within 120 seconds" ∧
    ServeEvent.serveStart ∉ (runStartup false (some model) polls).1 ∧
    ∃ pre post, (runStartup false (some model) polls).1 = pre ++ .sigkillGroup :: post ∧
      ServeEvent.spawnBackend ∈ pre ∧ ServeEvent.startupError ∈ post := by
  have hwait : wait_for_vllm_ready polls = false :=
    wait_loop_false polls 120 0 (fun i _ h₂ => hfail i (by omega))
  have hrun : runStartup false (some model) polls =
      ([.spawnBackend, .sigtermGroup, .sleepGrace, .sigkillGroup, .startupError],
       .error "vLLM server failed to start within 120 seconds") := by
    simp [runStartup, hwait, kill_process_tree_events]
  refine ⟨hwait, by rw [hrun], by rw [hrun]; decide, ?_⟩
  refine ⟨[.spawnBackend, .sigtermGroup, .sleepGrace], [.startupError], ?_, ?_, ?_⟩
  · rw [hrun]
    rfl
  · decide
  · decide

/-- C4, witness: the theorem applied to a backend that never becomes
healthy. -/
theorem c4_witness :
    wait_for_vllm_ready (fun _ => false) = false ∧
    (runStartup false (some "demo-model") (fun _ => false)).2 =
      .error "vLLM server failed to start within 120 seconds" :=
  ⟨(c4_failed_health_gate (fun _ => false) "demo-model" (fun _ _ => rfl)).1,
   (c4_failed_health_gate (fun _ => false) "demo-model" (fun _ _ => rfl)).2.1⟩

/-! ## C1 — engine-lock discipline -/

/-- C1, counterexample: in each streaming handler's trace with a single
upstream chunk, the chunk poll that produces the SSE frame happens after
the engine mutex is released, so the claimed property that every
engine-touching step holds the mutex is false. -/
theorem c1_counterexample :
    allEngineTouchesLocked (generateTrace true 1) = false ∧
    allEngineTouchesLocked (chatTrace true 1) = false ∧
    allEngineTouchesLocked (openaiChatCompletionsTrace true 1) = false := by
  decide

theorem lockDisciplineAux_replicate (n : Nat) :
    lockDisciplineAux 0 (List.replicate n (.touch .streamChunk)) = true := by
  induction n with
  | zero => rfl
  | succ m ih => simpa [List.replicate, lockDisciplineAux] using ih

/-- C1, amended: every handler holds the engine mutex for the duration of
its load, generate, chat-completion and stream-initiation calls, but the
guard is dropped when a streaming handler returns its SSE response, so
the per-chunk continuation of an open stream runs with the mutex free
and a later engine call may start while an earlier stream is still being
driven. -/
theorem c1_calls_locked_chunks_unlocked (stream : Bool) (chunks : Nat) :
    callsLockedChunksUnlocked (generateTrace stream chunks) = true ∧
    callsLockedChunksUnlocked (chatTrace stream chunks) = true ∧
    callsLockedChunksUnlocked (openaiChatCompletionsTrace stream chunks) = true ∧
    callsLockedChunksUnlocked pullLoadTrace = true := by
  have hstream : callsLockedChunksUnlocked
      ([.acquire, .touch .streamOpen, .release]
        ++ List.replicate chunks (.touch .streamChunk)) = true := by
    simp only [callsLockedChunksUnlocked, List.cons_append, List.nil_append,
      lockDisciplineAux]
    simpa using lockDisciplineAux_replicate chunks
  cases stream with
  | false =>
    exact ⟨by simp [generateTrace, callsLockedChunksUnlocked, lockDisciplineAux],
           by simp [chatTrace, callsLockedChunksUnlocked, lockDisciplineAux],
           by simp [openaiChatCompletionsTrace, callsLockedChunksUnlocked,
                    lockDisciplineAux],
           by decide⟩
  | true =>
    exact ⟨by simpa [generateTrace] using hstream,
           by simpa [chatTrace] using hstream,
           by simpa [openaiChatCompletionsTrace] using hstream,
           by decide⟩

/-! ## C2 — exactly one terminal frame, last, at exhaustion -/

/-- C2: for each of the three streaming translators and every upstream
result sequence, the emitted frame sequence carries exactly one terminal
frame when the upstream is consumed to exhaustion (all results Ok) and
none when an upstream error cuts the stream short, and every frame
before the last one is non-terminal, so a terminal frame can only be the
final frame. -/
theorem c2_terminal_frame_exactly_once_and_last
    (us : List (Except Err GenerateResponse)) (model id : String) (created : Nat) :
    ((ollamaGenerateFrames model 0 us).countP (fun f => f.done) =
        if us.all exceptIsOk then 1 else 0) ∧
    (∀ f ∈ (ollamaGenerateFrames model 0 us).dropLast, f.done = false) ∧
    ((ollamaChatFrames model "" 0 us).countP (fun f => f.done) =
        if us.all exceptIsOk then 1 else 0) ∧
    (∀ f ∈ (ollamaChatFrames model "" 0 us).dropLast, f.done = false) ∧
    ((openaiChatFrames id created model 0 us).countP openaiChunkIsTerminal =
        if us.all exceptIsOk then 1 else 0) ∧
    (∀ f ∈ (openaiChatFrames id created model 0 us).dropLast,
        openaiChunkIsTerminal f = false) :=
  ⟨ollamaGenerateFrames_countP model us 0,
   ollamaGenerateFrames_dropLast model us 0,
   ollamaChatFrames_countP model us "" 0,
   ollamaChatFrames_dropLast model us "" 0,
   openaiChatFrames_countP id created model us 0,
   openaiChatFrames_dropLast id created model us 0⟩

/-- C2, witness: the theorem applied to a one-fragment error-free
upstream; the Ollama-generate frame sequence carries exactly one
done-frame. -/
theorem c2_witness :
    (ollamaGenerateFrames "demo" 0
        [.ok ((GenerateResponse.new ⟨0⟩ "demo").with_text "hi")]).countP
      (fun f => f.done) = 1 := by
  have h := c2_terminal_frame_exactly_once_and_last
    [.ok ((GenerateResponse.new ⟨0⟩ "demo").with_text "hi")] "demo" "chatcmpl-0" 0
  rw [h.1]
  decide

/-! ## C3 — fragment concatenation across decoding and translation -/

/-- C3, counterexample: one upstream byte chunk carrying two SSE data
events; the engine-client decoder keeps only the first fragment, so the
concatenation of the delivered fragments is Hel while the backend
produced Hello. -/
theorem c3_counterexample :
    decodeStreamTexts ["data: \x7b\"text\":\"Hel\"\x7d\ndata: \x7b\"text\":\"lo\"\x7d"] = ["Hel"] ∧
    specBackendFullText ["data: \x7b\"text\":\"Hel\"\x7d\ndata: \x7b\"text\":\"lo\"\x7d"] = "Hello" ∧
    concatTexts (decodeStreamTexts ["data: \x7b\"text\":\"Hel\"\x7d\ndata: \x7b\"text\":\"lo\"\x7d"]) ≠
      specBackendFullText ["data: \x7b\"text\":\"Hel\"\x7d\ndata: \x7b\"text\":\"lo\"\x7d"] := by
  refine ⟨by decide, by decide, by decide⟩

/-- C3, amended: the three dialect translators deliver exactly the
upstream fragments, in order, in their non-terminal frames; and the
engine-client stream decoding is lossless — the concatenation of the
delivered fragments equals the full text the backend produced — provided
every upstream byte chunk carries at most one data line, the decoder
keeping only the first data line of each chunk.  The final conjunct
composes the two layers end to end. -/
theorem c3_fragments_concat (rs : List GenerateResponse) (model id : String)
    (created : Nat) (rid : RequestId) (chunks : List String)
    (hone : ∀ c ∈ chunks, (chunkDataTexts c).length ≤ 1) :
    (((ollamaGenerateFrames model 0 (rs.map .ok)).filter
        (fun f => !f.done)).map (fun f => f.response) =
      rs.map (fun r => r.text)) ∧
    (((ollamaChatFrames model "" 0 (rs.map .ok)).filter
        (fun f => !f.done)).map (fun f => f.message.content) =
      rs.map (fun r => r.text)) ∧
    (((openaiChatFrames id created model 0 (rs.map .ok)).filter
        (fun c => !openaiChunkIsTerminal c)).map openaiChunkText =
      rs.map (fun r => r.text)) ∧
    concatTexts (decodeStreamTexts chunks) = specBackendFullText chunks ∧
    concatTexts (((ollamaGenerateFrames model 0
        ((decodeStreamResponses rid model chunks).map .ok)).filter
          (fun f => !f.done)).map (fun f => f.response)) =
      specBackendFullText chunks := by
  refine ⟨ollamaGenerateFrames_texts model rs 0,
          ollamaChatFrames_texts model rs "" 0,
          openaiChatFrames_texts id created model rs 0,
          decode_concat_eq_backend_of_le_one chunks hone, ?_⟩
  rw [ollamaGenerateFrames_texts model (decodeStreamResponses rid model chunks) 0,
      decodeStreamResponses_texts rid model chunks]
  exact decode_concat_eq_backend_of_le_one chunks hone

/-- C3, witness: the amended theorem applied to a concrete well-chunked
stream: two byte chunks carrying one data event each plus a keep-alive
chunk; the decoded concatenation matches the backend text. -/
theorem c3_witness :
    concatTexts (decodeStreamTexts
        ["data: \x7b\"text\":\"Hel\"\x7d\n", ": keep-alive\n", "data: \x7b\"text\":\"lo\"\x7d\n"]) =
      specBackendFullText
        ["data: \x7b\"text\":\"Hel\"\x7d\n", ": keep-alive\n", "data: \x7b\"text\":\"lo\"\x7d\n"] :=
  (c3_fragments_concat [] "demo" "chatcmpl-0" 0 ⟨0⟩
    ["data: \x7b\"text\":\"Hel\"\x7d\n", ": keep-alive\n", "data: \x7b\"text\":\"lo\"\x7d\n"]
    (by decide)).2.2.2.1

end Vllama
